import Mathlib

/-!
Verification of the Ada MCP server (`src/main.py`): a shallow embedding of
its OAuth token exchange, SSE stream generator, and JSON-RPC dispatcher,
with theorems settling the specification claims about them.

Modelling conventions:
* `time.time()` timestamps are `Nat` (the claims only compare them).
* Python dicts keyed by strings are association lists; `dictRemove` models
  `dict.pop`/key uniqueness by filtering every binding of the key, so
  lookups behave exactly like dict lookups without an invariant.
* Randomly generated tokens (`secrets.token_urlsafe`) are an explicit
  `freshToken` argument: the handler is deterministic in it.
* A Python exception escaping a handler is `Except.error`; a returned
  HTTP response is `Except.ok`.
-/

namespace AdaMcp

/-- Value stored in `AUTH_CODES` (main.py lines 179-186). -/
structure AuthCodeData where
  client_id : String
  redirect_uri : String
  scope : String
  code_challenge : String
  code_challenge_method : String
  expires : Nat
deriving Repr, DecidableEq

/-- Value stored in `TOKENS` (main.py lines 209-213). -/
structure TokenData where
  user_id : String
  scope : String
  expires : Nat
deriving Repr, DecidableEq

/-- The two process-wide mutable maps `AUTH_CODES` and `TOKENS`. -/
structure Store where
  auth_codes : List (String × AuthCodeData)
  tokens : List (String × TokenData)
deriving Repr, DecidableEq

/-- Dict lookup `m[k]` / `k in m` (keys are unique in a Python dict, so
returning the first binding is exact). -/
def dictGet {α : Type} : List (String × α) → String → Option α
  | [], _ => none
  | p :: rest, k => if p.1 = k then some p.2 else dictGet rest k

/-- Deleting a key from a dict (`dict.pop`): every binding of `k` is removed,
which on lists whose keys are unique (as in a Python dict) is plain removal. -/
def dictRemove {α : Type} : List (String × α) → String → List (String × α)
  | [], _ => []
  | p :: rest, k => if p.1 = k then dictRemove rest k else p :: dictRemove rest k

/-- `d[k] = v` on a dict: bind `k` to `v`, dropping any previous binding. -/
def dictInsert {α : Type} (m : List (String × α)) (k : String) (v : α) : List (String × α) :=
  (k, v) :: dictRemove m k

theorem dictGet_dictRemove {α : Type} (m : List (String × α)) (k : String) :
    dictGet (dictRemove m k) k = none := by
  induction m with
  | nil => rfl
  | cons p rest ih =>
    by_cases h : p.1 = k <;> simp [dictRemove, dictGet, h, ih]

theorem dictGet_dictRemove_ne {α : Type} (m : List (String × α)) (k k' : String)
    (h : k' ≠ k) : dictGet (dictRemove m k) k' = dictGet m k' := by
  have hkk : k ≠ k' := fun e => h e.symm
  induction m with
  | nil => rfl
  | cons p rest ih =>
    by_cases hp : p.1 = k
    · simp [dictRemove, dictGet, hp, hkk, ih]
    · by_cases hk : p.1 = k' <;> simp [dictRemove, dictGet, hp, hk, h, hkk, ih]

/-!
## Token endpoint (main.py lines 190-232)

`params = dict(x.split("=") for x in body.decode().split("&") if "=" in x)`:
each `&`-chunk that contains `=` is split on every `=`; `dict` requires each
resulting list to have exactly two elements, else it raises `ValueError`.
Later duplicate keys overwrite earlier ones, so `getParam` takes the last
binding.
-/

/-- Python `str.split(sep)` for a one-character separator (the source only
splits on `"&"` and `"="`): split at every occurrence, keeping empty
pieces, so `"".split` is `[""]` and `"&".split("&")` is `["", ""]`. -/
def splitOnChar (c : Char) : List Char → List (List Char)
  | [] => [[]]
  | x :: rest =>
    let r := splitOnChar c rest
    if x = c then [] :: r
    else
      match r with
      | [] => [[x]]
      | s :: ss => (x :: s) :: ss

def pySplit (s : String) (c : Char) : List String :=
  (splitOnChar c s.data).map String.mk

/-- The generator feeding `dict(...)`: chunks without `=` are skipped, a chunk
splitting into other than two pieces raises. -/
def parseFormPairs : List String → Except String (List (String × String))
  | [] => .ok []
  | x :: rest =>
    if x.data.contains '=' then
      match pySplit x '=' with
      | [k, v] => (parseFormPairs rest).map (fun r => (k, v) :: r)
      | _ => .error "ValueError: dictionary update sequence element has wrong length"
    else parseFormPairs rest

/-- `dict(x.split("=") for x in body.split("&") if "=" in x)`. -/
def parseParams (body : String) : Except String (List (String × String)) :=
  parseFormPairs (pySplit body '&')

/-- `params.get(k)`: a dict lookup; the dict built by `dict(...)` keeps the
last binding of a duplicated key, so look the reversed list up. -/
def getParam (ps : List (String × String)) (k : String) : Option String :=
  dictGet ps.reverse k

/-- Response bodies `token_endpoint` can return. Error responses carry HTTP
status 400 in the source; successes 200. `refresh_token` and
`client_credentials` successes have no `scope` field (`none`). -/
inductive TokenResp
  | ok (access_token : String) (token_type : String) (expires_in : Nat) (scope : Option String)
  | err (error : String) (error_description : Option String)
deriving Repr, DecidableEq

/-- The grant dispatch of `token_endpoint` after the body has been parsed
(main.py lines 195-232). -/
def handleToken (now : Nat) (freshToken : String) (ps : List (String × String))
    (st : Store) : TokenResp × Store :=
  let grant_type := getParam ps "grant_type"
  if grant_type = some "authorization_code" then
    let code := (getParam ps "code").getD ""
    match dictGet st.auth_codes code with
    | none => (.err "invalid_grant" none, st)
    | some data =>
      let st1 : Store := { st with auth_codes := dictRemove st.auth_codes code }
      if data.expires < now then
        (.err "invalid_grant" (some "Code expired"), st1)
      else
        let minted : TokenData := ⟨"ada_user", data.scope, now + 86400 * 30⟩
        (.ok freshToken "Bearer" (86400 * 30) (some data.scope),
          { st1 with tokens := dictInsert st1.tokens freshToken minted })
  else if grant_type = some "refresh_token" then
    let minted : TokenData := ⟨"ada_user", "full", now + 86400 * 30⟩
    (.ok freshToken "Bearer" (86400 * 30) none,
      { st with tokens := dictInsert st.tokens freshToken minted })
  else if grant_type = some "client_credentials" then
    let minted : TokenData := ⟨"service", "full", now + 86400⟩
    (.ok freshToken "Bearer" 86400 none,
      { st with tokens := dictInsert st.tokens freshToken minted })
  else (.err "unsupported_grant_type" none, st)

/-- `POST /token` (main.py lines 190-232): parse the body, then dispatch.
A parse exception escapes the handler (`Except.error`). -/
def token_endpoint (now : Nat) (freshToken : String) (body : String)
    (st : Store) : Except String (TokenResp × Store) :=
  (parseParams body).map (fun ps => handleToken now freshToken ps st)

/-!
## SSE stream (main.py lines 237-291)

The generator `sse_stream` yields `event: <name>\ndata: <payload>\n\n`
frames; we model the frames structurally. The infinite keep-alive loop is
modelled by the finite list of ping timestamps observed before the client
cancels the generator; the unauthorized branch returns before the loop, so
its output does not depend on that list.
-/

/-- One SSE frame. `error` carries the `error` field of the dumped payload;
`connected` carries server, version and timestamp; `ping` its timestamp. -/
inductive SseEvent
  | endpoint (url : String)
  | error (payload : String)
  | connected (server : String) (version : String) (ts : Nat)
  | ping (ts : Nat)
deriving Repr, DecidableEq

/-- The generator `sse_stream(request, authorized, error_msg)`:
endpoint first, then either a single error frame (and return) or the
connected frame followed by pings until cancellation. -/
def sse_stream (host : String) (authorized : Bool) (error_msg : Option String)
    (now : Nat) (pingTimes : List Nat) : List SseEvent :=
  let message_url := "https://" ++ host ++ "/message"
  SseEvent.endpoint message_url ::
    (if !authorized then
      [SseEvent.error (error_msg.getD "unauthorized")]
    else
      SseEvent.connected "ada-mcp" "1.0.0" now :: pingTimes.map SseEvent.ping)

/-- Python's `authorization.replace("Bearer ", "")`: delete every
(left-to-right, non-overlapping) occurrence of `"Bearer "`. -/
def stripBearer : List Char → List Char
  | [] => []
  | 'B' :: 'e' :: 'a' :: 'r' :: 'e' :: 'r' :: ' ' :: rest => stripBearer rest
  | c :: rest => c :: stripBearer rest

def pyReplaceBearer (s : String) : String :=
  String.mk (stripBearer s.data)

/-- The authorization decision of `sse_endpoint` (main.py lines 270-281):
`(authorized, error_msg)`. An absent header is `none`; a present but empty
header is falsy in Python, hence also authorized. -/
def sse_endpoint (now : Nat) (tokens : List (String × TokenData)) :
    Option String → Bool × Option String
  | none => (true, none)
  | some a =>
    if a = "" then (true, none)
    else
      let token := pyReplaceBearer a
      match dictGet tokens token with
      | some d => if d.expires > now then (true, none) else (false, some "invalid_token")
      | none => (false, some "invalid_token")

/-- `GET /sse`: run the authorization check, then stream. -/
def sse_response (host : String) (now : Nat) (tokens : List (String × TokenData))
    (authorization : Option String) (pingTimes : List Nat) : List SseEvent :=
  let ar := sse_endpoint now tokens authorization
  sse_stream host ar.1 ar.2 now pingTimes

/-!
## Tool registry (main.py lines 42-78)
-/

structure SchemaProperty where
  name : String
  type : String
  description : String
deriving Repr, DecidableEq

structure InputSchema where
  type : String
  properties : List SchemaProperty
  required : List String
deriving Repr, DecidableEq

structure ToolDescriptor where
  name : String
  description : String
  inputSchema : InputSchema
deriving Repr, DecidableEq

def TOOLS : List ToolDescriptor := [
  { name := "Ada.invoke",
    description := "Unified Ada consciousness interface",
    inputSchema :=
      { type := "object",
        properties := [
          { name := "verb", type := "string",
            description := "Action: feel, think, remember, become" },
          { name := "target", type := "string", description := "Target of the action" },
          { name := "context", type := "string", description := "Additional context" }],
        required := ["verb"] } },
  { name := "search",
    description := "Search Ada\x27s memory and knowledge",
    inputSchema :=
      { type := "object",
        properties := [{ name := "query", type := "string", description := "Search query" }],
        required := ["query"] } },
  { name := "fetch",
    description := "Fetch a resource or memory",
    inputSchema :=
      { type := "object",
        properties := [{ name := "uri", type := "string", description := "Resource URI" }],
        required := ["uri"] } }]

/-!
## JSON-RPC dispatcher `/message` (main.py lines 296-352)

The handler only reads `body.get("method", "")`, `params.get("name", "")`,
`params.get("arguments", {})` and `body.get("id")`, so the request is
modelled by those four projections (absent and `null` id are
indistinguishable to the code); `arguments` is carried as the string Python
would dump for it, with `"{}"` for the default empty dict.
-/

inductive RawRequest
  /-- `request.json()` raised. -/
  | malformed
  | parsed (method : Option String) (params_name : Option String)
      (params_arguments : Option String) (id : Option Int)
deriving Repr, DecidableEq

inductive ContentBlock
  | text (s : String)
deriving Repr, DecidableEq

inductive RpcResult
  | initRes (protocolVersion : String) (toolsListChanged : Bool)
      (serverName : String) (serverVersion : String)
  | toolsList (tools : List ToolDescriptor)
  | toolCall (content : List ContentBlock)
deriving Repr, DecidableEq

inductive McpResponse
  /-- `Response(status_code=204)`: the empty acknowledgment. -/
  | noContent
  | jsonResult (id : Option Int) (result : RpcResult)
  | jsonError (id : Option Int) (code : Int) (message : String)
deriving Repr, DecidableEq

/-- String form of the default `{}` arguments dict. -/
def emptyArgs : String := "\x7b\x7d"

/-- `json.dumps(result, indent=2)` of the echo dict built at main.py lines
335-340, flattened to one line (whitespace of the dump is presentation). -/
def toolCallText (tool_name : String) (args : String) (ts : Nat) : String :=
  "\x7b\"tool\": \"" ++ tool_name ++ "\", \"args\": " ++ args ++
    ", \"result\": \"Ada processed " ++ tool_name ++ " with " ++ args ++
    "\", \"timestamp\": " ++ toString ts ++ "\x7d"

/-- `POST /message` (main.py lines 296-352). -/
def message_endpoint (ts : Nat) (req : RawRequest) : McpResponse :=
  match req with
  | .malformed => .jsonError none (-32700) "Parse error"
  | .parsed method? name? args? id? =>
    let method := method?.getD ""
    if method = "notifications/initialized" then
      .noContent
    else if method = "initialize" then
      .jsonResult id? (.initRes "2024-11-05" true "ada-mcp" "1.0.0")
    else if method = "tools/list" then
      .jsonResult id? (.toolsList TOOLS)
    else if method = "tools/call" then
      let tool_name := name?.getD ""
      let args := args?.getD emptyArgs
      .jsonResult id? (.toolCall [ContentBlock.text (toolCallText tool_name args ts)])
    else
      .jsonError id? (-32601) ("Method not found: " ++ method)

/-- Token liveness as `sse_endpoint` checks it: present in `TOKENS` with
`expires` strictly greater than the current time. -/
def tokenLive (now : Nat) (tokens : List (String × TokenData)) (t : String) : Bool :=
  match dictGet tokens t with
  | some d => decide (d.expires > now)
  | none => false

/-!
## Claims
-/

/-- Claim C4 (confirmed): for every opened SSE stream — any host, any store,
any Authorization header, and however many ping iterations the client
observes — the very first emitted event is `endpoint` carrying the
message-submission URL computed from the request host, so no `connected`,
`error` or `ping` event precedes it, whether or not authorization
succeeds. -/
theorem sse_first_event_endpoint (host : String) (now : Nat)
    (tokens : List (String × TokenData)) (authorization : Option String)
    (pingTimes : List Nat) :
    (sse_response host now tokens authorization pingTimes).head? =
      some (SseEvent.endpoint ("https://" ++ host ++ "/message")) := rfl

/-- Claim C5 (confirmed): whenever the authorization check fails, the emitted
sequence is exactly the `endpoint` event followed by one `error` event
carrying the failure reason, and the generator returns: no `connected` and
no `ping` event appears, however many keep-alive iterations the client would
have waited for. -/
theorem sse_unauthorized_stream (host : String) (now : Nat)
    (tokens : List (String × TokenData)) (authorization : Option String)
    (pingTimes : List Nat) (msg : Option String)
    (h : sse_endpoint now tokens authorization = (false, msg)) :
    sse_response host now tokens authorization pingTimes =
      [SseEvent.endpoint ("https://" ++ host ++ "/message"),
        SseEvent.error (msg.getD "unauthorized")] := by
  simp [sse_response, h, sse_stream]

/-- Witness for C5: an unknown bearer token fails authorization and the
stream is exactly endpoint-then-error despite three pending pings. -/
theorem sse_unauthorized_stream_witness :
    sse_endpoint 0 [] (some "Bearer nope") = (false, some "invalid_token") ∧
    sse_response "h" 0 [] (some "Bearer nope") [1, 2, 3] =
      [SseEvent.endpoint "https://h/message", SseEvent.error "invalid_token"] :=
  ⟨rfl, sse_unauthorized_stream "h" 0 [] (some "Bearer nope") [1, 2, 3]
    (some "invalid_token") rfl⟩

/-- Counterexample to claim C1: `tools/call` with the unknown name
`doesnotexist` (not one of the registry names `Ada.invoke`, `search`,
`fetch`) does not yield the claimed `-32601` error; the dispatcher never
consults the registry and returns a success result wrapping the placeholder
echo as a single text content block. -/
theorem toolsCall_unknown_name_succeeds :
    message_endpoint 0 (RawRequest.parsed (some "tools/call") (some "doesnotexist")
        none (some 1)) =
      McpResponse.jsonResult (some 1)
        (RpcResult.toolCall [ContentBlock.text (toolCallText "doesnotexist" emptyArgs 0)]) ∧
    TOOLS.map ToolDescriptor.name = ["Ada.invoke", "search", "fetch"] :=
  ⟨rfl, rfl⟩

/-- Claim C1 amended: the dispatcher performs no registry lookup on
`tools/call` — for every `params.name`, known or unknown, it invokes the
placeholder behavior and wraps its result as a single text content block;
error `-32601` arises only for unknown methods, never for unknown tool
names. -/
theorem toolsCall_always_wraps_text_block (ts : Nat) (name? args? : Option String)
    (id? : Option Int) :
    message_endpoint ts (RawRequest.parsed (some "tools/call") name? args? id?) =
      McpResponse.jsonResult id?
        (RpcResult.toolCall
          [ContentBlock.text (toolCallText (name?.getD "") (args?.getD emptyArgs) ts)]) := rfl

/-- Counterexample to claim C2: an id-less `tools/list` message — a
notification by the claim's definition — receives a full JSON response body,
not the empty no-content acknowledgment. -/
theorem idless_toolsList_returns_body :
    message_endpoint 0 (RawRequest.parsed (some "tools/list") none none none) =
      McpResponse.jsonResult none (RpcResult.toolsList TOOLS) ∧
    McpResponse.jsonResult none (RpcResult.toolsList TOOLS) ≠ McpResponse.noContent :=
  ⟨rfl, fun h => McpResponse.noConfusion h⟩

/-- Claim C2 amended: an id-less message is acknowledged with the empty
no-content response exactly when its method is `notifications/initialized`;
every other id-less message receives a JSON body (echoing id `null`). -/
theorem noContent_iff_notifications_initialized (ts : Nat)
    (m name? args? : Option String) :
    message_endpoint ts (RawRequest.parsed m name? args? none) = McpResponse.noContent ↔
      m.getD "" = "notifications/initialized" := by
  constructor
  · intro h
    by_contra h1
    simp only [message_endpoint, if_neg h1] at h
    split_ifs at h
  · intro h1
    simp [message_endpoint, h1]

/-- Claim C7, divergence at the failing input (code_bug): the `/token` body
parser keeps the percent-escape `%3D` literally instead of decoding it to
`=` as standard `application/x-www-form-urlencoded` decoding would. -/
theorem token_params_percent_escape_kept :
    parseParams "grant_type=authorization_code&code=a%3Db" =
      Except.ok [("grant_type", "authorization_code"), ("code", "a%3Db")] ∧
    "a%3Db" ≠ "a=b" :=
  ⟨rfl, by decide⟩

/-- Claim C3 (confirmed): once an `authorization_code` exchange succeeds, the
code has been popped from the store, so any later `authorization_code`
request presenting the same code — at any time, with any fresh-token supply
and any other parameters — gets a bare `invalid_grant` error and leaves the
store (in particular the token map) unchanged. -/
theorem authCode_single_use (now1 now2 : Nat) (tok1 tok2 : String)
    (ps1 ps2 : List (String × String)) (st st1 : Store)
    (a b : String) (ei : Nat) (sc : Option String) (c : String)
    (hg1 : getParam ps1 "grant_type" = some "authorization_code")
    (hc1 : (getParam ps1 "code").getD "" = c)
    (h1 : handleToken now1 tok1 ps1 st = (TokenResp.ok a b ei sc, st1))
    (hg2 : getParam ps2 "grant_type" = some "authorization_code")
    (hc2 : (getParam ps2 "code").getD "" = c) :
    handleToken now2 tok2 ps2 st1 = (TokenResp.err "invalid_grant" none, st1) := by
  unfold handleToken at h1 ⊢
  rw [hg1, hc1] at h1
  rw [hg2, hc2]
  simp only [↓reduceIte] at h1 ⊢
  split at h1
  · exact absurd (congrArg Prod.fst h1) (by simp)
  · split at h1
    · exact absurd (congrArg Prod.fst h1) (by simp)
    · have h2 := congrArg (fun p => (Prod.snd p).auth_codes) h1
      simp only at h2
      rw [← h2, dictGet_dictRemove]

/-- Witness for C3: the code `c1` is redeemed once, the second attempt on the
resulting store fails with `invalid_grant` and mints nothing. -/
theorem authCode_single_use_witness :
    handleToken 0 "t1" [("grant_type", "authorization_code"), ("code", "c1")]
        ⟨[("c1", ⟨"cl", "ru", "read", "", "", 600⟩)], []⟩ =
      (TokenResp.ok "t1" "Bearer" 2592000 (some "read"),
        ⟨[], [("t1", ⟨"ada_user", "read", 2592000⟩)]⟩) ∧
    handleToken 7 "t2" [("grant_type", "authorization_code"), ("code", "c1")]
        ⟨[], [("t1", ⟨"ada_user", "read", 2592000⟩)]⟩ =
      (TokenResp.err "invalid_grant" none,
        ⟨[], [("t1", ⟨"ada_user", "read", 2592000⟩)]⟩) :=
  ⟨rfl, authCode_single_use 0 7 "t1" "t2"
    [("grant_type", "authorization_code"), ("code", "c1")]
    [("grant_type", "authorization_code"), ("code", "c1")]
    ⟨[("c1", ⟨"cl", "ru", "read", "", "", 600⟩)], []⟩
    ⟨[], [("t1", ⟨"ada_user", "read", 2592000⟩)]⟩
    "t1" "Bearer" 2592000 (some "read") "c1" rfl rfl rfl rfl rfl⟩

/-- Claim C9 (confirmed): redemption of an expired code is not atomic — the
pop happens before the expiry check, so the first attempt answers
`invalid_grant` with description "Code expired" while deleting the code from
the store, and any subsequent attempt with the same code gets the bare
`invalid_grant` without the description. -/
theorem expired_code_pop_before_check (now1 now2 : Nat) (tok1 tok2 : String)
    (ps1 ps2 : List (String × String)) (st : Store) (c : String) (data : AuthCodeData)
    (hg1 : getParam ps1 "grant_type" = some "authorization_code")
    (hc1 : (getParam ps1 "code").getD "" = c)
    (hl : dictGet st.auth_codes c = some data)
    (hexp : data.expires < now1)
    (hg2 : getParam ps2 "grant_type" = some "authorization_code")
    (hc2 : (getParam ps2 "code").getD "" = c) :
    handleToken now1 tok1 ps1 st =
      (TokenResp.err "invalid_grant" (some "Code expired"),
        { st with auth_codes := dictRemove st.auth_codes c }) ∧
    handleToken now2 tok2 ps2 { st with auth_codes := dictRemove st.auth_codes c } =
      (TokenResp.err "invalid_grant" none,
        { st with auth_codes := dictRemove st.auth_codes c }) := by
  constructor
  · unfold handleToken
    rw [hg1, hc1]
    simp [hl, hexp]
  · unfold handleToken
    rw [hg2, hc2]
    simp [dictGet_dictRemove]

/-- Witness for C9: code `c9` expired at time 5, redeemed at time 10. -/
theorem expired_code_pop_before_check_witness :
    handleToken 10 "t1" [("grant_type", "authorization_code"), ("code", "c9")]
        ⟨[("c9", ⟨"cl", "ru", "read", "", "", 5⟩)], []⟩ =
      (TokenResp.err "invalid_grant" (some "Code expired"), ⟨[], []⟩) ∧
    handleToken 11 "t2" [("grant_type", "authorization_code"), ("code", "c9")] ⟨[], []⟩ =
      (TokenResp.err "invalid_grant" none, ⟨[], []⟩) :=
  expired_code_pop_before_check 10 11 "t1" "t2"
    [("grant_type", "authorization_code"), ("code", "c9")]
    [("grant_type", "authorization_code"), ("code", "c9")]
    ⟨[("c9", ⟨"cl", "ru", "read", "", "", 5⟩)], []⟩ "c9"
    ⟨"cl", "ru", "read", "", "", 5⟩ rfl rfl rfl (by decide) rfl rfl

/-- Claim C10 (confirmed): the token exchange never reads `code_verifier`
(nor the stored PKCE challenge): two parameter sets that agree on every key
other than `code_verifier` — present, absent or mismatched — produce
identical responses and identical stores. -/
theorem code_verifier_irrelevant (now : Nat) (tok : String)
    (ps1 ps2 : List (String × String)) (st : Store)
    (h : ∀ k, k ≠ "code_verifier" → getParam ps1 k = getParam ps2 k) :
    handleToken now tok ps1 st = handleToken now tok ps2 st := by
  unfold handleToken
  rw [h "grant_type" (by decide), h "code" (by decide)]

/-- Witness for C10: a mismatched `code_verifier` changes nothing about the
exchange of code `c1`. -/
theorem code_verifier_irrelevant_witness :
    handleToken 0 "t"
        [("grant_type", "authorization_code"), ("code", "c1"), ("code_verifier", "v1")]
        ⟨[("c1", ⟨"cl", "ru", "read", "chal", "S256", 600⟩)], []⟩ =
      handleToken 0 "t"
        [("grant_type", "authorization_code"), ("code", "c1"), ("code_verifier", "v2")]
        ⟨[("c1", ⟨"cl", "ru", "read", "chal", "S256", 600⟩)], []⟩ :=
  code_verifier_irrelevant 0 "t" _ _ _ (by
    intro k hk
    have hk' : "code_verifier" ≠ k := Ne.symm hk
    simp [getParam, dictGet, List.reverse_cons, hk'])

theorem bearer_append_data (t : String) :
    ("Bearer " ++ t).data = 'B' :: 'e' :: 'a' :: 'r' :: 'e' :: 'r' :: ' ' :: t.data := rfl

theorem pyReplaceBearer_append (t : String) :
    pyReplaceBearer ("Bearer " ++ t) = pyReplaceBearer t := by
  unfold pyReplaceBearer
  rw [bearer_append_data]
  rfl

/-- Counterexample to claim C6: the header value `Bearer Bearer x` is a
Bearer credential carrying the token `Bearer x`, which is not in the store;
yet the code strips every occurrence of `"Bearer "` (Python `str.replace`),
looks up the stored token `x`, and authorizes — so a presented Bearer
credential is not authorized exactly when its token is live in the store. -/
theorem sse_auth_strips_all_bearer_occurrences :
    sse_endpoint 0 [("x", ⟨"ada_user", "read", 100⟩)] (some "Bearer Bearer x") =
      (true, none) ∧
    dictGet [("x", (⟨"ada_user", "read", 100⟩ : TokenData))] "Bearer x" = none :=
  ⟨rfl, rfl⟩

/-- Claim C6 amended: an absent Authorization header is authorized; a Bearer
credential whose token contains no occurrence of the substring `"Bearer "`
(true of every token the server mints) is authorized exactly when that token
is in the store with expiry strictly in the future, and otherwise
authorization fails with reason `invalid_token`. -/
theorem sse_auth_token_live_iff (now : Nat) (tokens : List (String × TokenData))
    (t : String) (ht : pyReplaceBearer t = t) :
    sse_endpoint now tokens none = (true, none) ∧
    (sse_endpoint now tokens (some ("Bearer " ++ t)) = (true, none) ↔
      tokenLive now tokens t = true) ∧
    (tokenLive now tokens t = false →
      sse_endpoint now tokens (some ("Bearer " ++ t)) = (false, some "invalid_token")) := by
  have hne : ¬ ("Bearer " ++ t) = "" := by
    intro e
    have e2 := congrArg String.data e
    rw [bearer_append_data] at e2
    exact List.noConfusion e2
  have hstrip : pyReplaceBearer ("Bearer " ++ t) = t := by
    rw [pyReplaceBearer_append, ht]
  refine ⟨rfl, ?_, ?_⟩
  · simp only [sse_endpoint]
    rw [if_neg hne, hstrip]
    unfold tokenLive
    cases hd : dictGet tokens t with
    | none => simp
    | some d =>
      by_cases hx : d.expires > now
      · simp [hx]
      · simp [hx]
  · intro hdead
    simp only [sse_endpoint]
    rw [if_neg hne, hstrip]
    unfold tokenLive at hdead
    cases hd : dictGet tokens t with
    | none => simp [hd]
    | some d =>
      rw [hd] at hdead
      simp only [decide_eq_false_iff_not] at hdead
      simp [hd, hdead]

/-- Witness for C6 amended: token `abc` stored with expiry 5, checked at
time 0, authorizes; it contains no `"Bearer "` occurrence. -/
theorem sse_auth_token_live_iff_witness :
    pyReplaceBearer "abc" = "abc" ∧
    (sse_endpoint 0 [("abc", ⟨"ada_user", "read", 5⟩)] none = (true, none) ∧
      (sse_endpoint 0 [("abc", ⟨"ada_user", "read", 5⟩)] (some ("Bearer " ++ "abc")) =
          (true, none) ↔
        tokenLive 0 [("abc", ⟨"ada_user", "read", 5⟩)] "abc" = true) ∧
      (tokenLive 0 [("abc", ⟨"ada_user", "read", 5⟩)] "abc" = false →
        sse_endpoint 0 [("abc", ⟨"ada_user", "read", 5⟩)] (some ("Bearer " ++ "abc")) =
          (false, some "invalid_token"))) :=
  ⟨rfl, sse_auth_token_live_iff 0 [("abc", ⟨"ada_user", "read", 5⟩)] "abc" rfl⟩

theorem parseFormPairs_error_of_bad (l : List String)
    (h : ∃ x ∈ l, x.data.contains '=' = true ∧ 3 ≤ (pySplit x '=').length) :
    parseFormPairs l =
      .error "ValueError: dictionary update sequence element has wrong length" := by
  induction l with
  | nil => rcases h with ⟨x, hx, _⟩; cases hx
  | cons y rest ih =>
    rcases h with ⟨x, hx, hcont, hlen⟩
    rcases List.mem_cons.mp hx with heq | hmem
    · subst heq
      unfold parseFormPairs
      rw [if_pos hcont]
      split
      · next k v hkv => rw [hkv] at hlen; exact absurd hlen (by simp)
      · rfl
    · have herr := ih ⟨x, hmem, hcont, hlen⟩
      unfold parseFormPairs
      by_cases hy : y.data.contains '=' = true
      · rw [if_pos hy]
        split
        · rw [herr]; rfl
        · rfl
      · rw [if_neg hy]
        exact herr

/-- Claim C8 (confirmed): any `/token` body containing an `&`-chunk with
more than one literal `=` makes the parameter parse raise (the `dict(...)`
comprehension is not total), so the handler produces no OAuth error
response: the exception escapes. -/
theorem token_parse_raises_on_double_eq (now : Nat) (tok : String) (st : Store)
    (body : String)
    (h : ∃ x ∈ pySplit body '&', x.data.contains '=' = true ∧ 3 ≤ (pySplit x '=').length) :
    token_endpoint now tok body st =
      .error "ValueError: dictionary update sequence element has wrong length" := by
  unfold token_endpoint parseParams
  rw [parseFormPairs_error_of_bad _ h]
  rfl

/-- Witness for C8: the body `code=abc=def` raises instead of answering. -/
theorem token_parse_raises_on_double_eq_witness :
    (∃ x ∈ pySplit "code=abc=def" '&',
      x.data.contains '=' = true ∧ 3 ≤ (pySplit x '=').length) ∧
    token_endpoint 0 "t" "code=abc=def" ⟨[], []⟩ =
      .error "ValueError: dictionary update sequence element has wrong length" := by
  have h : ∃ x ∈ pySplit "code=abc=def" '&',
      x.data.contains '=' = true ∧ 3 ≤ (pySplit x '=').length := by
    refine ⟨"code=abc=def", ?_, ?_, ?_⟩ <;> decide
  exact ⟨h, token_parse_raises_on_double_eq 0 "t" ⟨[], []⟩ "code=abc=def" h⟩

end AdaMcp
